import Mathlib

/-!
Shallow embedding of `src/app.js` (a three.js tutorial script).

The script keeps four module-level globals (`scene`, `camera`, `model`,
`renderer`) and defines `init`, `createScene`, `configureCamera`,
`setUpLight`, `addModel`, `renderScene` and the per-frame callback
`animate`.  We embed the globals as an explicit `AppState` record and each
function as a state transformer; functions that would dereference a
possibly-undefined global in JavaScript return `Except String AppState`
(an `Except.error` stands for a thrown `TypeError`).  Time values and
coordinates are rationals (the claims are about exact arithmetic), and a
call to `renderer.render` is recorded by incrementing a draw counter on
the renderer.  The scene's child list stores light data inline (lights are
never mutated after creation) and stores the model as a reference marker,
since the model's mutable transform lives in the `model` global.
-/

namespace ThreeApp

/-- A 3D vector, as used for positions, scales and Euler rotations. -/
structure Vec3 where
  x : ℚ
  y : ℚ
  z : ℚ
  deriving Repr, DecidableEq

/- Constants from the top of `src/app.js`.  `WIDTH`/`HEIGHT` come from
`window.innerWidth`/`window.innerHeight`, i.e. from the environment, so they
stay parameters of the functions that read them. -/

def FOV : ℚ := 45
def NEAR : ℚ := 1
def FAR : ℚ := 1000

def CAMERA_X : ℚ := 0
def CAMERA_Y : ℚ := 10
def CAMERA_Z : ℚ := 17

def MODEL_X : ℚ := 0
def MODEL_Y : ℚ := 10
def MODEL_Z : ℚ := 10
def MODEL_SCALE : ℚ := 1/2

def BACKGROUND_IMG_PATH : String := "materials/space.jpg"
def MODEL_GLTF_PATH : String := "materials/shine.gltf"

def LIGHT_INTENSITY : ℚ := 5
def AMBIENT_COLOR : ℕ := 0xffffff
def DIRECTIONAL_COLOR : ℕ := 0xffd700

def ROTATE_X_DELAY : ℚ := 2000
def ROTATE_Y_DELAY : ℚ := 1000

/-- The two light variants used by the script. -/
inductive LightKind where
  | ambient
  | directional
  deriving Repr, DecidableEq

/-- A light entity: variant, color, intensity and 3D position. -/
structure Light where
  kind : LightKind
  color : ℕ
  intensity : ℚ
  position : Vec3
  deriving Repr, DecidableEq

/-- The model root node: uniform-scalable transform mutated by the app.
Mirrors the three.js `Object3D` fields the script touches. -/
structure Model where
  scale : Vec3
  position : Vec3
  rotation : Vec3
  deriving Repr, DecidableEq

/-- The root node produced by `GLTFLoader` for `gltf.scene`: a fresh group
with the default `Object3D` transform (identity scale, origin position,
zero rotation). -/
def loadedGltfRoot : Model :=
  { scale := ⟨1, 1, 1⟩, position := ⟨0, 0, 0⟩, rotation := ⟨0, 0, 0⟩ }

/-- A perspective camera, as built by `new THREE.PerspectiveCamera`. -/
structure Camera where
  fov : ℚ
  aspect : ℚ
  near : ℚ
  far : ℚ
  position : Vec3
  deriving Repr, DecidableEq

/-- A child of the scene graph: either a light (stored inline; lights are
never mutated after creation) or the model node (a reference marker — the
model's mutable state is the `model` global). -/
inductive SceneNode where
  | lightNode (l : Light)
  | modelNode
  deriving Repr, DecidableEq

/-- The scene: a background texture path and the list of added children,
in insertion order. -/
structure Scene where
  background : Option String
  children : List SceneNode
  deriving Repr, DecidableEq

/-- Embeds `scene.add(child)`: appends to the child list. -/
def Scene.add (s : Scene) (n : SceneNode) : Scene :=
  { s with children := s.children ++ [n] }

/-- The lights currently in the scene, in insertion order. -/
def Scene.lights (s : Scene) : List Light :=
  s.children.filterMap fun n =>
    match n with
    | .lightNode l => some l
    | .modelNode => none

/-- How many times the model node has been inserted into the scene. -/
def Scene.modelCount (s : Scene) : ℕ :=
  (s.children.filter fun n => n = .modelNode).length

/-- The `WebGLRenderer`: its size and a counter of `render` calls. -/
structure Renderer where
  width : ℚ
  height : ℚ
  draws : ℕ
  deriving Repr, DecidableEq

/-- Trace events, one per step of `init`, recording execution order. -/
inductive Event where
  | evCreateScene
  | evConfigureCamera
  | evSetUpLight
  | evAddModelStart
  | evStartLoop
  deriving Repr, DecidableEq

/-- The module-level globals of `app.js`, plus the event trace. -/
structure AppState where
  scene : Option Scene
  camera : Option Camera
  model : Option Model
  renderer : Option Renderer
  events : List Event
  deriving Repr, DecidableEq

/-- The globals before `init` runs: all `undefined`. -/
def initialState : AppState :=
  { scene := none, camera := none, model := none, renderer := none,
    events := [] }

/-- Embeds `createScene()`: makes a new scene and sets its background
texture. -/
def createScene (s : AppState) : AppState :=
  let sc : Scene := { background := some BACKGROUND_IMG_PATH, children := [] }
  { s with scene := some sc, events := s.events ++ [.evCreateScene] }

/-- Embeds `configureCamera()`: builds the perspective camera
`new THREE.PerspectiveCamera(FOV, WIDTH / HEIGHT, NEAR, FAR)` and moves it
to `(CAMERA_X, CAMERA_Y, CAMERA_Z)`. -/
def configureCamera (WIDTH HEIGHT : ℚ) (s : AppState) : AppState :=
  let cam : Camera :=
    { fov := FOV, aspect := WIDTH / HEIGHT, near := NEAR, far := FAR,
      position := ⟨CAMERA_X, CAMERA_Y, CAMERA_Z⟩ }
  { s with camera := some cam, events := s.events ++ [.evConfigureCamera] }

/-- The body of `setUpLight` on the scene object: adds the ambient light at
the model anchor and the two directional lights at `MODEL_Z ± 1`. -/
def Scene.setUpLightBody (sc : Scene) : Scene :=
  let ambientLight : Light :=
    { kind := .ambient, color := AMBIENT_COLOR, intensity := LIGHT_INTENSITY,
      position := ⟨MODEL_X, MODEL_Y, MODEL_Z⟩ }
  let directionalLight : Light :=
    { kind := .directional, color := DIRECTIONAL_COLOR,
      intensity := LIGHT_INTENSITY,
      position := ⟨MODEL_X, MODEL_Y, MODEL_Z + 1⟩ }
  let directionalLight2 : Light :=
    { kind := .directional, color := DIRECTIONAL_COLOR,
      intensity := LIGHT_INTENSITY,
      position := ⟨MODEL_X, MODEL_Y, MODEL_Z - 1⟩ }
  ((sc.add (.lightNode ambientLight)).add
      (.lightNode directionalLight)).add (.lightNode directionalLight2)

/-- Embeds `setUpLight()`: dereferences the `scene` global (throwing if it
is still undefined) and adds the three lights. -/
def setUpLight (s : AppState) : Except String AppState :=
  match s.scene with
  | none => .error "TypeError: scene is undefined"
  | some sc =>
      .ok { s with scene := some sc.setUpLightBody,
                   events := s.events ++ [.evSetUpLight] }

/-- The completion callback passed to `loader.load` in `addModel`: sets the
`model` global to the loaded root, scales it by `MODEL_SCALE`, positions it
at the model anchor, and adds it to the scene. -/
def onGltfLoaded (gltfScene : Model) (s : AppState) : Except String AppState :=
  match s.scene with
  | none => .error "TypeError: scene is undefined"
  | some sc =>
      .ok { s with
              model := some { gltfScene with
                scale := ⟨MODEL_SCALE, MODEL_SCALE, MODEL_SCALE⟩,
                position := ⟨MODEL_X, MODEL_Y, MODEL_Z⟩ },
              scene := some (sc.add .modelNode) }

/-- Embeds `addModel()`: constructs the loader and initiates the asynchronous load
(fire-and-forget); the callback `onGltfLoaded` runs on a later event-loop
turn, so here only the initiation is recorded. -/
def addModel (s : AppState) : AppState :=
  { s with events := s.events ++ [.evAddModelStart] }

/-- Embeds `renderScene()`: constructs the `WebGLRenderer`, sizes it to the
window, and registers `animate` as the animation loop. -/
def renderScene (WIDTH HEIGHT : ℚ) (s : AppState) : AppState :=
  { s with renderer := some { width := WIDTH, height := HEIGHT, draws := 0 },
           events := s.events ++ [.evStartLoop] }

/-- Embeds `init()`: the bootstrap sequence, in source order. -/
def init (WIDTH HEIGHT : ℚ) : Except String AppState := do
  let s1 := createScene initialState
  let s2 := configureCamera WIDTH HEIGHT s1
  let s3 ← setUpLight s2
  let s4 := addModel s3
  return renderScene WIDTH HEIGHT s4

/-- The guarded rotation update at the top of `animate`: if the model is
present (`model && model.rotation`), set its rotation about X to
`time / ROTATE_X_DELAY` and about Y to `time / ROTATE_Y_DELAY`; otherwise
leave the state untouched. -/
def rotateStep (time : ℚ) (s : AppState) : AppState :=
  match s.model with
  | some m =>
      let rot' : Vec3 :=
        { m.rotation with x := time / ROTATE_X_DELAY,
                          y := time / ROTATE_Y_DELAY }
      { s with model := some { m with rotation := rot' } }
  | none => s

/-- Embeds `animate(time)`: performs the guarded rotation update, then calls
`renderer.render(scene, camera)`, which throws if `renderer` is still
undefined. -/
def animate (time : ℚ) (s : AppState) : Except String AppState :=
  match (rotateStep time s).renderer with
  | none => .error "TypeError: renderer is undefined"
  | some r =>
      .ok { rotateStep time s with
              renderer := some { r with draws := r.draws + 1 } }

/-- A sequence of `animate` calls, oldest first, stopping at the first
thrown error. -/
def animateSeq : List ℚ → AppState → Except String AppState
  | [], s => .ok s
  | t :: ts, s =>
      match animate t s with
      | .error e => .error e
      | .ok s' => animateSeq ts s'

/- Concrete fixtures used by the witness theorems. -/

/-- A model node as it might sit in the scene after loading. -/
def testModel : Model :=
  { scale := ⟨1, 1, 1⟩, position := ⟨0, 10, 10⟩, rotation := ⟨0, 0, 0⟩ }

/-- A renderer that has not drawn yet. -/
def testRenderer : Renderer := { width := 800, height := 600, draws := 0 }

/-- A freshly created scene with no children. -/
def testScene : Scene :=
  { background := some BACKGROUND_IMG_PATH, children := [] }

/-- A state with a loaded model and a renderer. -/
def testState : AppState :=
  { scene := some testScene, camera := none, model := some testModel,
    renderer := some testRenderer, events := [] }

/-- A state with a renderer but no model yet. -/
def testStateNoModel : AppState := { testState with model := none }

/-- A state with a scene but neither model nor renderer. -/
def testStateScene : AppState :=
  { scene := some testScene, camera := none, model := none,
    renderer := none, events := [] }

/-- A state with a scene and a renderer but no model yet. -/
def testStateFull : AppState :=
  { scene := some testScene, camera := none, model := none,
    renderer := some testRenderer, events := [] }

/-- The state after `setUpLight` runs on `testStateScene`. -/
def testStateWithLights : AppState :=
  { testStateScene with
      scene := some testScene.setUpLightBody,
      events := [.evSetUpLight] }

/-- The state after `animate 5` runs on `testState`. -/
def testStateAfter5 : AppState :=
  { testState with
      model := some { testModel with rotation := ⟨5 / 2000, 5 / 1000, 0⟩ },
      renderer := some { testRenderer with draws := 1 } }

/-- The state after `animate 7` runs on `testState`. -/
def testStateAfter7 : AppState :=
  { testState with
      model := some { testModel with rotation := ⟨7 / 2000, 7 / 1000, 0⟩ },
      renderer := some { testRenderer with draws := 1 } }

/-- The state after `animate 1000` runs on `testState`. -/
def testStateR1 : AppState :=
  { testState with
      model := some { testModel with
        rotation := ⟨1000 / 2000, 1000 / 1000, 0⟩ },
      renderer := some { testRenderer with draws := 1 } }

/-- The state after `animate 1000` runs on `testStateAfter7`. -/
def testStateR2 : AppState :=
  { testStateAfter7 with
      model := some { testModel with
        rotation := ⟨1000 / 2000, 1000 / 1000, 0⟩ },
      renderer := some { testRenderer with draws := 2 } }

/-- The state after the load callback runs on `testStateFull` with the
default gltf root. -/
def testStateLoaded : AppState :=
  { testStateFull with
      model := some { loadedGltfRoot with
        scale := ⟨1/2, 1/2, 1/2⟩, position := ⟨0, 10, 10⟩ },
      scene := some (testScene.add .modelNode) }

/-- The state after `animate 2000` runs on `testStateLoaded`. -/
def testStateLoadedSpun : AppState :=
  { testStateLoaded with
      model := some { scale := ⟨1/2, 1/2, 1/2⟩, position := ⟨0, 10, 10⟩,
                      rotation := ⟨2000 / 2000, 2000 / 1000, 0⟩ },
      renderer := some { testRenderer with draws := 1 } }

/-- The state after the load callback runs on `testStateFull` with
`testModel` as the loaded root. -/
def testStateInserted : AppState :=
  { testStateFull with
      model := some { testModel with
        scale := ⟨1/2, 1/2, 1/2⟩, position := ⟨0, 10, 10⟩ },
      scene := some (testScene.add .modelNode) }

/-! ### Helper lemmas about the per-frame step -/

theorem rotateStep_scene (t : ℚ) (s : AppState) :
    (rotateStep t s).scene = s.scene := by
  unfold rotateStep
  cases s.model <;> rfl

theorem rotateStep_camera (t : ℚ) (s : AppState) :
    (rotateStep t s).camera = s.camera := by
  unfold rotateStep
  cases s.model <;> rfl

theorem rotateStep_renderer (t : ℚ) (s : AppState) :
    (rotateStep t s).renderer = s.renderer := by
  unfold rotateStep
  cases s.model <;> rfl

theorem rotateStep_events (t : ℚ) (s : AppState) :
    (rotateStep t s).events = s.events := by
  unfold rotateStep
  cases s.model <;> rfl

theorem rotateStep_model_none (t : ℚ) (s : AppState) (h : s.model = none) :
    rotateStep t s = s := by
  unfold rotateStep
  rw [h]

theorem rotateStep_model_some (t : ℚ) (s : AppState) (m : Model)
    (h : s.model = some m) :
    (rotateStep t s).model =
      some { m with rotation :=
        ⟨t / ROTATE_X_DELAY, t / ROTATE_Y_DELAY, m.rotation.z⟩ } := by
  unfold rotateStep
  rw [h]

theorem animate_renderer_none (t : ℚ) (s : AppState) (h : s.renderer = none) :
    animate t s = .error "TypeError: renderer is undefined" := by
  unfold animate
  rw [rotateStep_renderer, h]

theorem animate_ok (t : ℚ) (s : AppState) (r : Renderer)
    (h : s.renderer = some r) :
    animate t s = .ok { rotateStep t s with
      renderer := some { r with draws := r.draws + 1 } } := by
  unfold animate
  rw [rotateStep_renderer, h]

theorem animate_ok_elim (t : ℚ) (s s' : AppState) (h : animate t s = .ok s') :
    ∃ r, s.renderer = some r ∧
      s' = { rotateStep t s with
               renderer := some { r with draws := r.draws + 1 } } := by
  cases hr : s.renderer with
  | none =>
      rw [animate_renderer_none t s hr] at h
      exact Except.noConfusion h
  | some r =>
      rw [animate_ok t s r hr] at h
      injection h with h2
      exact ⟨r, rfl, h2.symm⟩

theorem animate_ok_scene (t : ℚ) (s s' : AppState) (h : animate t s = .ok s') :
    s'.scene = s.scene := by
  obtain ⟨r, hr, rfl⟩ := animate_ok_elim t s s' h
  exact rotateStep_scene t s

theorem animate_ok_camera (t : ℚ) (s s' : AppState) (h : animate t s = .ok s') :
    s'.camera = s.camera := by
  obtain ⟨r, hr, rfl⟩ := animate_ok_elim t s s' h
  exact rotateStep_camera t s

theorem animate_ok_model (t : ℚ) (s s' : AppState) (h : animate t s = .ok s') :
    s'.model = (rotateStep t s).model := by
  obtain ⟨r, hr, rfl⟩ := animate_ok_elim t s s' h
  rfl

theorem animate_ok_renderer (t : ℚ) (s s' : AppState)
    (h : animate t s = .ok s') : ∃ r', s'.renderer = some r' := by
  obtain ⟨r, hr, rfl⟩ := animate_ok_elim t s s' h
  exact ⟨_, rfl⟩

theorem animateSeq_preserve (P : AppState → Prop)
    (hstep : ∀ t s s', animate t s = .ok s' → P s → P s')
    (ts : List ℚ) :
    ∀ s s', animateSeq ts s = .ok s' → P s → P s' := by
  induction ts with
  | nil =>
      intro s s' h hp
      unfold animateSeq at h
      injection h with h2
      exact h2 ▸ hp
  | cons t ts ih =>
      intro s s' h hp
      unfold animateSeq at h
      cases hmid : animate t s with
      | error e =>
          rw [hmid] at h
          exact Except.noConfusion h
      | ok smid =>
          rw [hmid] at h
          exact ih smid s' h (hstep t s smid hmid hp)

/-! ### Helper lemmas about the scene graph -/

theorem setUpLightBody_lights (sc : Scene) :
    sc.setUpLightBody.lights = sc.lights ++
      [{ kind := .ambient, color := AMBIENT_COLOR,
         intensity := LIGHT_INTENSITY,
         position := ⟨MODEL_X, MODEL_Y, MODEL_Z⟩ },
       { kind := .directional, color := DIRECTIONAL_COLOR,
         intensity := LIGHT_INTENSITY,
         position := ⟨MODEL_X, MODEL_Y, MODEL_Z + 1⟩ },
       { kind := .directional, color := DIRECTIONAL_COLOR,
         intensity := LIGHT_INTENSITY,
         position := ⟨MODEL_X, MODEL_Y, MODEL_Z - 1⟩ }] := by
  simp [Scene.setUpLightBody, Scene.lights, Scene.add, List.filterMap_append]

theorem modelCount_add_modelNode (sc : Scene) :
    (sc.add .modelNode).modelCount = sc.modelCount + 1 := by
  simp [Scene.add, Scene.modelCount, List.filter_append]

/-! ### The claims -/

/-- C1: for every time value `t ≥ 0`, if the model is present (and the
renderer exists, as it does whenever the render loop invokes `animate`),
`animate t` sets the model's rotation about X to exactly `t / 2000` radians
and about Y to exactly `t / 1000` radians, with no easing or clamping: the
result state is exactly the input state with those two rotation components
replaced and one more draw recorded. -/
theorem animate_rotation_formula (t : ℚ) (ht : 0 ≤ t) (s : AppState)
    (m : Model) (r : Renderer)
    (hm : s.model = some m) (hr : s.renderer = some r) :
    animate t s = .ok { s with
        model := some { m with rotation :=
          ⟨t / 2000, t / 1000, m.rotation.z⟩ },
        renderer := some { r with draws := r.draws + 1 } } := by
  rw [animate_ok t s r hr]
  unfold rotateStep
  rw [hm]
  rfl

theorem animate_rotation_formula_witness :
    (0 : ℚ) ≤ 2000 ∧ testState.model = some testModel ∧
    testState.renderer = some testRenderer ∧
    animate 2000 testState = .ok { testState with
        model := some { testModel with rotation := ⟨1, 2, 0⟩ },
        renderer := some { testRenderer with draws := 1 } } := by
  refine ⟨by norm_num, rfl, rfl, ?_⟩
  have h := animate_rotation_formula 2000 (by norm_num) testState testModel
    testRenderer rfl rfl
  exact h.trans (congrArg Except.ok
    (by norm_num [testState, testModel, testRenderer]))

/-- C2: for every time value `t`, a call to `animate t` while the model is
absent does not throw (given the renderer exists, as it does whenever the
render loop invokes `animate`), leaves every part of the state other than
the draw counter unmodified, and records exactly one draw; moreover every
successful `animate` call, model present or not, records exactly one
draw. -/
theorem animate_absent_model_safe (t : ℚ) (s : AppState) (r : Renderer)
    (hr : s.renderer = some r) :
    (s.model = none →
      animate t s = .ok { s with
        renderer := some { r with draws := r.draws + 1 } }) ∧
    ∀ s', animate t s = .ok s' →
      s'.renderer = some { r with draws := r.draws + 1 } := by
  constructor
  · intro hm
    rw [animate_ok t s r hr, rotateStep_model_none t s hm]
  · intro s' h
    obtain ⟨r', hr', rfl⟩ := animate_ok_elim t s s' h
    rw [hr] at hr'
    injection hr' with h2
    rw [h2]

theorem animate_absent_model_safe_witness :
    testStateNoModel.renderer = some testRenderer ∧
    ((testStateNoModel.model = none →
      animate 3 testStateNoModel = .ok { testStateNoModel with
        renderer := some { testRenderer with draws := 1 } }) ∧
    ∀ s', animate 3 testStateNoModel = .ok s' →
      s'.renderer = some { testRenderer with draws := 1 }) :=
  ⟨rfl, animate_absent_model_safe 3 testStateNoModel testRenderer rfl⟩

/-- C4: `configureCamera` builds a perspective camera with field of view 45
degrees, near clip plane 1, far clip plane 1000, aspect ratio equal to the
viewport width divided by the viewport height as read at configuration
time, positioned at the fixed point (0, 10, 17). -/
theorem configureCamera_parameters (WIDTH HEIGHT : ℚ) (s : AppState) :
    ∃ cam, (configureCamera WIDTH HEIGHT s).camera = some cam ∧
      cam.fov = 45 ∧ cam.near = 1 ∧ cam.far = 1000 ∧
      cam.aspect = WIDTH / HEIGHT ∧ cam.position = ⟨0, 10, 17⟩ :=
  ⟨_, rfl, rfl, rfl, rfl, rfl, rfl⟩

/-- C10: the three lights created by `setUpLight` are all constructed with
the same intensity value 5: the ambient light's intensity equals the
intensity of each directional light. -/
theorem setUpLight_uniform_intensity (sc : Scene) :
    (sc.setUpLightBody.lights.drop sc.lights.length).map Light.intensity =
      [5, 5, 5] := by
  rw [setUpLightBody_lights, List.drop_left]
  rfl

/-- C3: after `setUpLight` completes on the freshly created (light-free)
scene, the scene contains exactly three lights: one ambient light at the
model anchor (0, 10, 10) and two directional lights at (0, 10, 11) and
(0, 10, 9) — one unit in front of and one unit behind the anchor, differing
from it only in z by ±1 — where the two directional lights share color and
intensity and the ambient light's color is distinct from theirs. -/
theorem setUpLight_exactly_three_lights (st s' : AppState) (sc : Scene)
    (hsc : st.scene = some sc) (h0 : sc.lights = [])
    (h : setUpLight st = .ok s') :
    ∃ amb d1 d2, s'.scene.map Scene.lights = some [amb, d1, d2] ∧
      amb.kind = .ambient ∧ amb.position = ⟨0, 10, 10⟩ ∧
      d1.kind = .directional ∧ d2.kind = .directional ∧
      d1.position = ⟨0, 10, 11⟩ ∧ d2.position = ⟨0, 10, 9⟩ ∧
      d1.color = d2.color ∧ d1.intensity = d2.intensity ∧
      amb.color ≠ d1.color := by
  unfold setUpLight at h
  rw [hsc] at h
  injection h with h2
  subst h2
  have hl : sc.setUpLightBody.lights =
      [{ kind := .ambient, color := AMBIENT_COLOR,
         intensity := LIGHT_INTENSITY, position := ⟨0, 10, 10⟩ },
       { kind := .directional, color := DIRECTIONAL_COLOR,
         intensity := LIGHT_INTENSITY, position := ⟨0, 10, 11⟩ },
       { kind := .directional, color := DIRECTIONAL_COLOR,
         intensity := LIGHT_INTENSITY, position := ⟨0, 10, 9⟩ }] := by
    rw [setUpLightBody_lights, h0]
    norm_num [ MODEL_X, MODEL_Y, MODEL_Z]
  refine ⟨_, _, _, congrArg some hl, rfl, rfl, rfl, rfl, rfl, rfl, rfl,
    rfl, ?_⟩
  decide

/-- C5: on a successful model load, the completion callback applies the
uniform scale factor 0.5 to the loaded root node, sets its position to the
anchor (0, 10, 10), and inserts it into the scene graph exactly once:
starting from a scene with no model insertion, exactly one insertion exists
after the callback, and any subsequent sequence of `animate` frames leaves
the insertion count at one. -/
theorem load_callback_inserts_once (g : Model) (st s' : AppState)
    (sc : Scene) (hsc : st.scene = some sc) (h0 : sc.modelCount = 0)
    (h : onGltfLoaded g st = .ok s') :
    s'.model = some { g with scale := ⟨1/2, 1/2, 1/2⟩,
                             position := ⟨0, 10, 10⟩ } ∧
    (∃ sc', s'.scene = some sc' ∧ sc'.modelCount = 1) ∧
    (∀ ts s'', animateSeq ts s' = .ok s'' →
       ∃ sc'', s''.scene = some sc'' ∧ sc''.modelCount = 1) := by
  unfold onGltfLoaded at h
  rw [hsc] at h
  injection h with h2
  subst h2
  refine ⟨rfl, ⟨_, rfl, ?_⟩, ?_⟩
  · rw [modelCount_add_modelNode, h0]
  · intro ts s'' hseq
    have hpres := animateSeq_preserve
      (fun u => u.scene = some (sc.add .modelNode))
      (fun τ a b hab hpa => (animate_ok_scene τ a b hab).trans hpa)
      ts _ s'' hseq rfl
    exact ⟨_, hpres, by rw [modelCount_add_modelNode, h0]⟩

/-- C6: `init` performs its steps in exactly the order createScene,
configureCamera, setUpLight, addModel (load initiation only), start of the
render loop; at the moment the loop starts the scene exists with its three
lights, the camera exists, the model is still absent, and no frame has been
drawn yet. -/
theorem init_bootstrap_order (WIDTH HEIGHT : ℚ) :
    ∃ st, init WIDTH HEIGHT = .ok st ∧
      st.events = [.evCreateScene, .evConfigureCamera, .evSetUpLight,
                   .evAddModelStart, .evStartLoop] ∧
      (∃ sc, st.scene = some sc ∧ sc.lights.length = 3) ∧
      (∃ cam, st.camera = some cam) ∧
      st.model = none ∧
      (∃ r, st.renderer = some r ∧ r.draws = 0) :=
  ⟨_, rfl, rfl, ⟨_, rfl, rfl⟩, ⟨_, rfl⟩, rfl, ⟨_, rfl, rfl⟩⟩

/-- C7: a call to `animate` never mutates the camera or the lights: for
every time value `t`, a successful `animate t` call leaves the camera (its
field of view, clip planes, aspect ratio and position) and the scene —
hence every light's color, intensity and position — unchanged. -/
theorem animate_preserves_camera_and_lights (t : ℚ) (s s' : AppState)
    (h : animate t s = .ok s') :
    s'.camera = s.camera ∧ s'.scene = s.scene ∧
    s'.scene.map Scene.lights = s.scene.map Scene.lights :=
  ⟨animate_ok_camera t s s' h, animate_ok_scene t s s' h,
   by rw [animate_ok_scene t s s' h]⟩

theorem animate_preserves_camera_and_lights_witness :
    animate 5 testState = .ok testStateAfter5 ∧
    (testStateAfter5.camera = testState.camera ∧
     testStateAfter5.scene = testState.scene ∧
     testStateAfter5.scene.map Scene.lights =
       testState.scene.map Scene.lights) :=
  ⟨rfl, animate_preserves_camera_and_lights 5 testState testStateAfter5 rfl⟩

theorem setUpLight_exactly_three_lights_witness :
    testStateScene.scene = some testScene ∧ testScene.lights = [] ∧
    setUpLight testStateScene = .ok testStateWithLights ∧
    (∃ amb d1 d2,
      testStateWithLights.scene.map Scene.lights = some [amb, d1, d2] ∧
      amb.kind = .ambient ∧ amb.position = ⟨0, 10, 10⟩ ∧
      d1.kind = .directional ∧ d2.kind = .directional ∧
      d1.position = ⟨0, 10, 11⟩ ∧ d2.position = ⟨0, 10, 9⟩ ∧
      d1.color = d2.color ∧ d1.intensity = d2.intensity ∧
      amb.color ≠ d1.color) :=
  ⟨rfl, rfl, rfl,
   setUpLight_exactly_three_lights testStateScene testStateWithLights
     testScene rfl rfl rfl⟩

/-- C8: the model's rotation after `animate t` is a pure function of `t`
(and of the initial rotation-Z, which `animate` never writes): starting
from any state whose model is present, any two sequences of prior `animate`
calls that both end with a successful `animate t` produce the identical
rotation state, namely `(t / 2000, t / 1000, initial z)` — no state
accumulates across frames beyond what the time-to-angle formula
produces. -/
theorem animate_rotation_stateless (ts₁ ts₂ : List ℚ) (t : ℚ)
    (s₀ s₁ s₂ r₁ r₂ : AppState) (m₀ : Model)
    (hm : s₀.model = some m₀)
    (h1 : animateSeq ts₁ s₀ = .ok s₁) (h2 : animateSeq ts₂ s₀ = .ok s₂)
    (hf1 : animate t s₁ = .ok r₁) (hf2 : animate t s₂ = .ok r₂) :
    r₁.model.map Model.rotation =
      some ⟨t / 2000, t / 1000, m₀.rotation.z⟩ ∧
    r₂.model.map Model.rotation = r₁.model.map Model.rotation := by
  have hstep : ∀ τ (a b : AppState), animate τ a = .ok b →
      (∃ m, a.model = some m ∧ m.rotation.z = m₀.rotation.z) →
      ∃ m, b.model = some m ∧ m.rotation.z = m₀.rotation.z := by
    rintro τ a b hab ⟨m, hm', hz⟩
    refine ⟨{ m with rotation :=
      ⟨τ / ROTATE_X_DELAY, τ / ROTATE_Y_DELAY, m.rotation.z⟩ }, ?_, hz⟩
    rw [animate_ok_model τ a b hab, rotateStep_model_some τ a m hm']
  have hfin : ∀ (a b : AppState),
      (∃ m, a.model = some m ∧ m.rotation.z = m₀.rotation.z) →
      animate t a = .ok b →
      b.model.map Model.rotation =
        some ⟨t / 2000, t / 1000, m₀.rotation.z⟩ := by
    rintro a b ⟨m, hm', hz⟩ hab
    rw [animate_ok_model t a b hab, rotateStep_model_some t a m hm',
      Option.map_some', hz]
    rfl
  have hp1 := animateSeq_preserve _ hstep ts₁ s₀ s₁ h1 ⟨m₀, hm, rfl⟩
  have hp2 := animateSeq_preserve _ hstep ts₂ s₀ s₂ h2 ⟨m₀, hm, rfl⟩
  have e1 := hfin s₁ r₁ hp1 hf1
  have e2 := hfin s₂ r₂ hp2 hf2
  exact ⟨e1, e2.trans e1.symm⟩

/-- C9: `animate` with the model present modifies only the rotation about
the X and Y axes: after the load callback installs the model and any
sequence of frames runs, a further `animate t` leaves the model's position
at the anchor (0, 10, 10) and its scale at the uniform 0.5 exactly as set
by the load callback, leaves the rotation about Z at its initial value 0,
and writes only `t / 2000` and `t / 1000` into rotation X and Y. -/
theorem animate_modifies_only_rotation_xy (t : ℚ) (ts : List ℚ)
    (st s₀ s₁ s₂ : AppState) (sc : Scene)
    (hsc : st.scene = some sc)
    (hload : onGltfLoaded loadedGltfRoot st = .ok s₀)
    (hseq : animateSeq ts s₀ = .ok s₁)
    (hfin : animate t s₁ = .ok s₂) :
    ∃ m, s₂.model = some m ∧
      m.position = ⟨0, 10, 10⟩ ∧ m.scale = ⟨1/2, 1/2, 1/2⟩ ∧
      m.rotation.z = 0 ∧ m.rotation.x = t / 2000 ∧
      m.rotation.y = t / 1000 := by
  unfold onGltfLoaded at hload
  rw [hsc] at hload
  injection hload with h2
  subst h2
  have hstep : ∀ τ (a b : AppState), animate τ a = .ok b →
      (∃ m, a.model = some m ∧ m.position = ⟨0, 10, 10⟩ ∧
        m.scale = ⟨1/2, 1/2, 1/2⟩ ∧ m.rotation.z = 0) →
      ∃ m, b.model = some m ∧ m.position = ⟨0, 10, 10⟩ ∧
        m.scale = ⟨1/2, 1/2, 1/2⟩ ∧ m.rotation.z = 0 := by
    rintro τ a b hab ⟨m, hm', hpos, hscale, hz⟩
    refine ⟨{ m with rotation :=
      ⟨τ / ROTATE_X_DELAY, τ / ROTATE_Y_DELAY, m.rotation.z⟩ }, ?_,
      hpos, hscale, hz⟩
    rw [animate_ok_model τ a b hab, rotateStep_model_some τ a m hm']
  have hp := animateSeq_preserve _ hstep ts _ s₁ hseq
    ⟨_, rfl, rfl, rfl, rfl⟩
  obtain ⟨m, hm', hpos, hscale, hz⟩ := hp
  refine ⟨{ m with rotation :=
    ⟨t / ROTATE_X_DELAY, t / ROTATE_Y_DELAY, m.rotation.z⟩ }, ?_,
    hpos, hscale, hz, rfl, rfl⟩
  rw [animate_ok_model t s₁ s₂ hfin, rotateStep_model_some t s₁ m hm']

theorem animate_rotation_stateless_witness :
    testState.model = some testModel ∧
    animateSeq [] testState = .ok testState ∧
    animateSeq [7] testState = .ok testStateAfter7 ∧
    animate 1000 testState = .ok testStateR1 ∧
    animate 1000 testStateAfter7 = .ok testStateR2 ∧
    (testStateR1.model.map Model.rotation =
       some ⟨1000 / 2000, 1000 / 1000, 0⟩ ∧
     testStateR2.model.map Model.rotation =
       testStateR1.model.map Model.rotation) :=
  ⟨rfl, rfl, rfl, rfl, rfl,
   animate_rotation_stateless [] [7] 1000 testState testState
     testStateAfter7 testStateR1 testStateR2 testModel rfl rfl rfl rfl rfl⟩

theorem animate_modifies_only_rotation_xy_witness :
    testStateFull.scene = some testScene ∧
    onGltfLoaded loadedGltfRoot testStateFull = .ok testStateLoaded ∧
    animateSeq [] testStateLoaded = .ok testStateLoaded ∧
    animate 2000 testStateLoaded = .ok testStateLoadedSpun ∧
    (∃ m, testStateLoadedSpun.model = some m ∧
      m.position = ⟨0, 10, 10⟩ ∧ m.scale = ⟨1/2, 1/2, 1/2⟩ ∧
      m.rotation.z = 0 ∧ m.rotation.x = 2000 / 2000 ∧
      m.rotation.y = 2000 / 1000) :=
  ⟨rfl, rfl, rfl, rfl,
   animate_modifies_only_rotation_xy 2000 [] testStateFull testStateLoaded
     testStateLoaded testStateLoadedSpun testScene rfl rfl rfl rfl⟩

theorem load_callback_inserts_once_witness :
    testStateFull.scene = some testScene ∧ testScene.modelCount = 0 ∧
    onGltfLoaded testModel testStateFull = .ok testStateInserted ∧
    (testStateInserted.model = some { testModel with
        scale := ⟨1/2, 1/2, 1/2⟩, position := ⟨0, 10, 10⟩ } ∧
     (∃ sc', testStateInserted.scene = some sc' ∧ sc'.modelCount = 1) ∧
     (∀ ts s'', animateSeq ts testStateInserted = .ok s'' →
        ∃ sc'', s''.scene = some sc'' ∧ sc''.modelCount = 1)) :=
  ⟨rfl, rfl, rfl,
   load_callback_inserts_once testModel testStateFull testStateInserted
     testScene rfl rfl rfl⟩

end ThreeApp
